import Mathlib

/-!
Verification of the brokkr helm-chart test orchestrator
(src/.angreal/task_helm.py) against its natural-language specification.

Python strings are modelled at the level of lists of characters
(a Python str is a sequence of code points).  Machine randomness
(uuid4), the global module state, wall-clock time and the results of
external processes enter the embedding as explicit parameters: every
poll tick consumes one external process result, and sleeping for the
fixed interval between ticks advances the tick counter by one.
-/

namespace Brokkr

/-- Python str.strip with no argument: remove leading and trailing
whitespace characters. -/
def pyStripChars (l : List Char) : List Char :=
  ((l.dropWhile Char.isWhitespace).reverse.dropWhile Char.isWhitespace).reverse

/-- Helper for pySplitWs: the second argument accumulates the current
token in reverse order. -/
def pySplitWsAux : List Char → List Char → List (List Char)
  | [], acc => if acc.isEmpty then [] else [acc.reverse]
  | c :: rest, acc =>
    if c.isWhitespace then
      if acc.isEmpty then pySplitWsAux rest []
      else acc.reverse :: pySplitWsAux rest []
    else pySplitWsAux rest (c :: acc)

/-- Python str.split with no argument: split on runs of whitespace,
discarding empty tokens. -/
def pySplitWs (l : List Char) : List (List Char) := pySplitWsAux l []

/-- The Python substring containment test (the in operator on str). -/
def pyIn (needle : String) (hay : List Char) : Bool :=
  decide (needle.data <:+: hay)

/-- task_helm.generate_project_name: the fixed text helm-test- followed
by the first 8 characters of the hex form of a uuid4 value.  The uuid4
hex string drawn by the Python runtime is the explicit argument. -/
def generate_project_name (uuid_hex : String) : String :=
  "helm-test-" ++ String.mk (uuid_hex.data.take 8)

/-- task_helm.get_project_name: the module-global _PROJECT_NAME cell is
threaded as the Option String argument; the result pairs the returned
name with the new cell contents (the cell is filled on first use). -/
def get_project_name (uuid_hex : String) : Option String → String × Option String
  | none =>
    (generate_project_name uuid_hex, some (generate_project_name uuid_hex))
  | some p => (p, some p)

/-- task_helm.get_network_name: the project name followed by _default. -/
def get_network_name (uuid_hex : String) (st : Option String) :
    String × Option String :=
  ((get_project_name uuid_hex st).1 ++ "_default",
   (get_project_name uuid_hex st).2)

/-- task_helm.get_volume_name: the project name, an underscore, then the
short volume name. -/
def get_volume_name (uuid_hex : String) (st : Option String)
    (volume : String) : String × Option String :=
  ((get_project_name uuid_hex st).1 ++ "_" ++ volume,
   (get_project_name uuid_hex st).2)

/-- C7 counterexample: two distinct uuid4 hex values that agree on their
first 8 characters yield the same generated project name, so identities
produced in one process are not guaranteed pairwise distinct. -/
theorem generate_project_name_collision :
    ("01234567aaaaaaaaaaaaaaaaaaaaaaaa" : String) ≠
      "01234567bbbbbbbbbbbbbbbbbbbbbbbb" ∧
    generate_project_name "01234567aaaaaaaaaaaaaaaaaaaaaaaa" =
      generate_project_name "01234567bbbbbbbbbbbbbbbbbbbbbbbb" := by
  constructor
  · decide
  · decide

/-- C7 (amended): generate_project_name depends on the drawn uuid4 value
only through the first 8 hex characters: two generated identities are
equal exactly when those 8-character prefixes are equal, so distinctness
holds only when the random prefixes differ and is not enforced by the
function itself. -/
theorem generate_project_name_eq_iff (u1 u2 : String) :
    generate_project_name u1 = generate_project_name u2 ↔
      u1.data.take 8 = u2.data.take 8 := by
  unfold generate_project_name
  rw [String.ext_iff]
  simp [String.data_append]

/-- C9: the project name is generated at most once per process: once the
global cell holds a name, every later call returns that name unchanged
and leaves the cell as it is, regardless of the uuid value the later
call could have drawn; and the network and volume names are the pure
derivations identity ++ _default and identity ++ _ ++ volume of the one
cached identity. -/
theorem project_name_cached_and_derived :
    (∀ (u1 u2 : String) (st : Option String),
      (get_project_name u2 (get_project_name u1 st).2).1 =
        (get_project_name u1 st).1 ∧
      (get_project_name u2 (get_project_name u1 st).2).2 =
        (get_project_name u1 st).2) ∧
    (∀ (u : String) (st : Option String),
      (get_network_name u st).1 = (get_project_name u st).1 ++ "_default" ∧
      (get_network_name u st).2 = (get_project_name u st).2) ∧
    (∀ (u : String) (st : Option String) (v : String),
      (get_volume_name u st v).1 =
        (get_project_name u st).1 ++ "_" ++ v ∧
      (get_volume_name u st v).2 = (get_project_name u st).2) := by
  refine ⟨?_, ?_, ?_⟩
  · intro u1 u2 st
    cases st <;> simp [get_project_name]
  · intro u st
    exact ⟨rfl, rfl⟩
  · intro u st v
    exact ⟨rfl, rfl⟩

/-- Result of one external process run as observed by the orchestrator:
the exit code and the captured standard output. -/
structure ProcResult where
  returncode : Int
  stdout : String

/-- What one iteration of a polling loop does: return a value from the
enclosing function, or fall through to the sleep and poll again. -/
inductive TickStep where
  | ret : Bool → TickStep
  | again : TickStep
deriving DecidableEq

/-- task_helm.wait_for_pods, terminal_failures list: waiting reasons
that cannot self-heal. -/
def terminal_failures : List String :=
  ["CrashLoopBackOff", "ImagePullBackOff", "ErrImagePull", "InvalidImageName"]

/-- The body of the wait_for_pods polling loop, applied to the result of
the kubectl pod-status query of one tick: on a terminal-failure match it
returns False, when every pod status contains Running:True it returns
True, and otherwise (including a failed query or empty output) it falls
through to the 3-second sleep. -/
def wait_for_pods_tick (r : ProcResult) : TickStep :=
  if (r.returncode == 0) && !(pyStripChars r.stdout.data).isEmpty then
    let pod_statuses := pySplitWs (pyStripChars r.stdout.data)
    if pod_statuses.any (fun st => terminal_failures.any (fun f => pyIn f st)) then
      TickStep.ret false
    else if !pod_statuses.isEmpty &&
        pod_statuses.all (fun st => pyIn "Running:True" st) then
      TickStep.ret true
    else TickStep.again
  else TickStep.again

/-- The sleep interval of the wait_for_pods loop, in seconds. -/
def poll_interval : Nat := 3

/-- The wait_for_pods while loop over the stream of per-tick query
results, with the remaining number of ticks as fuel: tick k runs at
elapsed time poll_interval * k, and fuel exhaustion is the timeout. -/
def wait_for_pods_loop (query : Nat → ProcResult) : Nat → Nat → Bool
  | 0, _ => false
  | fuel + 1, k =>
    match wait_for_pods_tick (query k) with
    | TickStep.ret b => b
    | TickStep.again => wait_for_pods_loop query fuel (k + 1)

/-- Number of loop iterations of wait_for_pods: the while condition
elapsed < timeout is checked at elapsed = poll_interval * k. -/
def wait_for_pods_ticks (timeout : Nat) : Nat :=
  (timeout + poll_interval - 1) / poll_interval

/-- task_helm.wait_for_pods as a function of the query-result stream and
the timeout in seconds. -/
def wait_for_pods (query : Nat → ProcResult) (timeout : Nat) : Bool :=
  wait_for_pods_loop query (wait_for_pods_ticks timeout) 0

theorem lt_ticks_iff (timeout k : Nat) :
    k < wait_for_pods_ticks timeout ↔ poll_interval * k < timeout := by
  unfold wait_for_pods_ticks poll_interval
  omega

theorem wait_loop_skip (query : Nat → ProcResult) :
    ∀ (n fuel start : Nat),
      (∀ j, j < n → wait_for_pods_tick (query (start + j)) = TickStep.again) →
      wait_for_pods_loop query (n + fuel) start =
        wait_for_pods_loop query fuel (start + n) := by
  intro n
  induction n with
  | zero => intro fuel start _; simp
  | succ m ih =>
    intro fuel start h
    have hstep : wait_for_pods_tick (query start) = TickStep.again := by
      have := h 0 (Nat.succ_pos m)
      simpa using this
    have hrest : ∀ j, j < m →
        wait_for_pods_tick (query (start + 1 + j)) = TickStep.again := by
      intro j hj
      have := h (j + 1) (by omega)
      have e : start + (j + 1) = start + 1 + j := by omega
      rwa [e] at this
    have e1 : m + 1 + fuel = (m + fuel) + 1 := by omega
    rw [e1]
    show (match wait_for_pods_tick (query start) with
      | TickStep.ret b => b
      | TickStep.again => wait_for_pods_loop query (m + fuel) (start + 1)) =
        wait_for_pods_loop query fuel (start + (m + 1))
    rw [hstep, ih fuel (start + 1) hrest]
    have e2 : start + 1 + m = start + (m + 1) := by omega
    rw [e2]

theorem wait_loop_false (query : Nat → ProcResult) :
    ∀ (fuel start : Nat),
      (∀ j, j < fuel → wait_for_pods_tick (query (start + j)) = TickStep.again) →
      wait_for_pods_loop query fuel start = false := by
  intro fuel
  induction fuel with
  | zero => intro start _; rfl
  | succ m ih =>
    intro start h
    have hstep : wait_for_pods_tick (query start) = TickStep.again := by
      have := h 0 (Nat.succ_pos m)
      simpa using this
    show (match wait_for_pods_tick (query start) with
      | TickStep.ret b => b
      | TickStep.again => wait_for_pods_loop query m (start + 1)) = false
    rw [hstep]
    apply ih
    intro j hj
    have := h (j + 1) (by omega)
    have e : start + (j + 1) = start + 1 + j := by omega
    rwa [e] at this

theorem wait_loop_at (query : Nat → ProcResult) (fuel k : Nat) (b : Bool)
    (hk : k < fuel)
    (hbefore : ∀ j, j < k → wait_for_pods_tick (query j) = TickStep.again)
    (hhit : wait_for_pods_tick (query k) = TickStep.ret b) :
    wait_for_pods_loop query fuel 0 = b := by
  obtain ⟨m, hm⟩ : ∃ m, fuel = k + (m + 1) := ⟨fuel - k - 1, by omega⟩
  subst hm
  have hskip := wait_loop_skip query k (m + 1) 0 (by
    intro j hj
    simpa using hbefore j hj)
  rw [hskip]
  show (match wait_for_pods_tick (query (0 + k)) with
    | TickStep.ret b => b
    | TickStep.again => wait_for_pods_loop query m (0 + k + 1)) = b
  rw [Nat.zero_add, hhit]

theorem tick_terminal (r : ProcResult) (hok : r.returncode = 0)
    (hne : pyStripChars r.stdout.data ≠ [])
    (hfail : ∃ st ∈ pySplitWs (pyStripChars r.stdout.data),
      ∃ f ∈ terminal_failures, pyIn f st = true) :
    wait_for_pods_tick r = TickStep.ret false := by
  unfold wait_for_pods_tick
  have h1 : (r.returncode == 0) = true := by simp [hok]
  have h2 : (pyStripChars r.stdout.data).isEmpty = false := by
    cases hp : pyStripChars r.stdout.data with
    | nil => exact absurd hp hne
    | cons a as => rfl
  have h3 : (pySplitWs (pyStripChars r.stdout.data)).any
      (fun st => terminal_failures.any (fun f => pyIn f st)) = true := by
    rw [List.any_eq_true]
    obtain ⟨st, hst, f, hf, hpf⟩ := hfail
    exact ⟨st, hst, by rw [List.any_eq_true]; exact ⟨f, hf, hpf⟩⟩
  simp [h1, h2, h3]

theorem tick_ready (r : ProcResult) (hok : r.returncode = 0)
    (hne : pyStripChars r.stdout.data ≠ [])
    (hpods : pySplitWs (pyStripChars r.stdout.data) ≠ [])
    (hnoterm : ∀ st ∈ pySplitWs (pyStripChars r.stdout.data),
      ∀ f ∈ terminal_failures, pyIn f st = false)
    (hready : ∀ st ∈ pySplitWs (pyStripChars r.stdout.data),
      pyIn "Running:True" st = true) :
    wait_for_pods_tick r = TickStep.ret true := by
  unfold wait_for_pods_tick
  have h1 : (r.returncode == 0) = true := by simp [hok]
  have h2 : (pyStripChars r.stdout.data).isEmpty = false := by
    cases hp : pyStripChars r.stdout.data with
    | nil => exact absurd hp hne
    | cons a as => rfl
  have h3 : (pySplitWs (pyStripChars r.stdout.data)).any
      (fun st => terminal_failures.any (fun f => pyIn f st)) = false := by
    rw [Bool.eq_false_iff]
    intro hcon
    rw [List.any_eq_true] at hcon
    obtain ⟨st, hst, hin⟩ := hcon
    rw [List.any_eq_true] at hin
    obtain ⟨f, hf, hpf⟩ := hin
    rw [hnoterm st hst f hf] at hpf
    exact Bool.false_ne_true hpf
  have h4 : (pySplitWs (pyStripChars r.stdout.data)).isEmpty = false := by
    cases hp : pySplitWs (pyStripChars r.stdout.data) with
    | nil => exact absurd hp hpods
    | cons a as => rfl
  have h5 : (pySplitWs (pyStripChars r.stdout.data)).all
      (fun st => pyIn "Running:True" st) = true := by
    rw [List.all_eq_true]
    exact hready
  simp [h1, h2, h3, h4, h5]

theorem tick_again_of_empty (r : ProcResult)
    (h : r.returncode ≠ 0 ∨ pyStripChars r.stdout.data = []) :
    wait_for_pods_tick r = TickStep.again := by
  unfold wait_for_pods_tick
  rcases h with h | h
  · have h1 : (r.returncode == 0) = false := by
      rw [beq_eq_false_iff_ne]
      exact h
    simp [h1]
  · have h2 : (pyStripChars r.stdout.data).isEmpty = true := by
      rw [List.isEmpty_iff]
      exact h
    simp [h2]

/-- C1: whenever the readiness poller reaches a tick at which the
pod-status query succeeds and some pod status contains one of the
terminal waiting reasons CrashLoopBackOff, ImagePullBackOff,
ErrImagePull or InvalidImageName, wait_for_pods returns False at that
very tick, which lies strictly inside the timeout window
(poll_interval * k < timeout), and never consults any later tick: the
result is False for every query stream that agrees up to that tick. -/
theorem wait_for_pods_terminal_fail_fast
    (query : Nat → ProcResult) (timeout k : Nat)
    (hk : poll_interval * k < timeout)
    (hbefore : ∀ j, j < k → wait_for_pods_tick (query j) = TickStep.again)
    (hok : (query k).returncode = 0)
    (hne : pyStripChars (query k).stdout.data ≠ [])
    (hfail : ∃ st ∈ pySplitWs (pyStripChars (query k).stdout.data),
      ∃ f ∈ terminal_failures, pyIn f st = true) :
    wait_for_pods query timeout = false ∧
    ∀ query2 : Nat → ProcResult,
      (∀ j, j ≤ k → query2 j = query j) →
      wait_for_pods query2 timeout = false := by
  have hk2 : k < wait_for_pods_ticks timeout := (lt_ticks_iff timeout k).2 hk
  have hhit := tick_terminal (query k) hok hne hfail
  constructor
  · exact wait_loop_at query _ k false hk2 hbefore hhit
  · intro query2 hq
    apply wait_loop_at query2 _ k false hk2
    · intro j hj
      rw [hq j (le_of_lt hj)]
      exact hbefore j hj
    · rw [hq k (le_refl k)]
      exact hhit

def query_term_ex : Nat → ProcResult :=
  fun _ => ⟨0, "Pending:False:ImagePullBackOff"⟩

theorem wait_for_pods_terminal_fail_fast_witness :
    wait_for_pods query_term_ex 180 = false :=
  (wait_for_pods_terminal_fail_fast query_term_ex 180 0 (by decide)
    (fun j hj => absurd hj (Nat.not_lt_zero j)) rfl (by decide) (by decide)).1

/-- C2: absent a terminal-failure match, the poller returns True on the
first tick at which the query succeeds and every matched pod status
contains Running:True, no matter how many non-ready ticks preceded it;
and when every tick inside the timeout window falls through to the
3-second sleep, the poller returns False once the window is over. -/
theorem wait_for_pods_ready_and_timeout :
    (∀ (query : Nat → ProcResult) (timeout k : Nat),
      poll_interval * k < timeout →
      (∀ j, j < k → wait_for_pods_tick (query j) = TickStep.again) →
      (query k).returncode = 0 →
      pyStripChars (query k).stdout.data ≠ [] →
      pySplitWs (pyStripChars (query k).stdout.data) ≠ [] →
      (∀ st ∈ pySplitWs (pyStripChars (query k).stdout.data),
        ∀ f ∈ terminal_failures, pyIn f st = false) →
      (∀ st ∈ pySplitWs (pyStripChars (query k).stdout.data),
        pyIn "Running:True" st = true) →
      wait_for_pods query timeout = true) ∧
    (∀ (query : Nat → ProcResult) (timeout : Nat),
      (∀ k, poll_interval * k < timeout →
        wait_for_pods_tick (query k) = TickStep.again) →
      wait_for_pods query timeout = false) := by
  constructor
  · intro query timeout k hk hbefore hok hne hpods hnoterm hready
    exact wait_loop_at query _ k true ((lt_ticks_iff timeout k).2 hk) hbefore
      (tick_ready (query k) hok hne hpods hnoterm hready)
  · intro query timeout hall
    apply wait_loop_false
    intro j hj
    have hj2 : j < wait_for_pods_ticks timeout := by simpa using hj
    simpa using hall j ((lt_ticks_iff timeout j).1 hj2)

def query_ready_ex : Nat → ProcResult :=
  fun _ => ⟨0, "Running:True: Running:True:"⟩

def query_down_ex : Nat → ProcResult :=
  fun _ => ⟨1, ""⟩

theorem wait_for_pods_ready_and_timeout_witness :
    wait_for_pods query_ready_ex 180 = true ∧
    wait_for_pods query_down_ex 9 = false :=
  ⟨wait_for_pods_ready_and_timeout.1 query_ready_ex 180 0 (by decide)
      (fun j hj => absurd hj (Nat.not_lt_zero j)) rfl (by decide) (by decide)
      (by decide) (by decide),
   wait_for_pods_ready_and_timeout.2 query_down_ex 9 (fun k _ => rfl)⟩

/-- C10: a tick whose pod-status query fails (nonzero exit) or produces
no pod at all (output empty after stripping) neither succeeds nor fails
fast: it falls through to the sleep, so the all-pods-ready condition is
never satisfied vacuously, and a query stream that stays in that state
for the whole window makes wait_for_pods return False only by timeout. -/
theorem wait_for_pods_no_pods_no_verdict :
    (∀ r : ProcResult,
      (r.returncode ≠ 0 ∨ pyStripChars r.stdout.data = []) →
      wait_for_pods_tick r = TickStep.again) ∧
    (∀ (query : Nat → ProcResult) (timeout : Nat),
      (∀ k, poll_interval * k < timeout →
        (query k).returncode ≠ 0 ∨ pyStripChars (query k).stdout.data = []) →
      wait_for_pods query timeout = false) := by
  constructor
  · exact tick_again_of_empty
  · intro query timeout hall
    apply wait_loop_false
    intro j hj
    have hj2 : j < wait_for_pods_ticks timeout := by simpa using hj
    have := tick_again_of_empty (query j)
      (hall j ((lt_ticks_iff timeout j).1 hj2))
    simpa using this

def query_blank_ex : Nat → ProcResult :=
  fun _ => ⟨0, "   "⟩

theorem blank_strip_empty : pyStripChars ("   " : String).data = [] := by
  decide

theorem wait_for_pods_no_pods_no_verdict_witness :
    wait_for_pods_tick ⟨1, "Running:True:"⟩ = TickStep.again ∧
    wait_for_pods query_blank_ex 9 = false :=
  ⟨wait_for_pods_no_pods_no_verdict.1 ⟨1, "Running:True:"⟩
      (Or.inl (by decide)),
   wait_for_pods_no_pods_no_verdict.2 query_blank_ex 9
      (fun _ _ => Or.inr blank_strip_empty)⟩

/-- task_helm.verify_kubectl_connectivity, max_wait: wall-clock bound in
seconds for the kubeconfig credential wait. -/
def max_wait : Nat := 30

/-- task_helm.verify_kubectl_connectivity, poll_intervals: fast initial
checks, then slower. -/
def poll_intervals : List Nat := [1, 1, 2, 2, 3, 3, 5, 5, 5, 5]

/-- The sleep chosen on poll iteration poll_idx:
poll_intervals[min(poll_idx, len(poll_intervals) - 1)]. -/
def sleep_time (poll_idx : Nat) : Nat :=
  poll_intervals.getD (min poll_idx (poll_intervals.length - 1)) 0

theorem one_le_sleep_time (i : Nat) : 1 ≤ sleep_time i := by
  have hlt : min i (poll_intervals.length - 1) < 10 := by
    have : poll_intervals.length = 10 := by decide
    omega
  have hall : ∀ j, j < 10 → 1 ≤ poll_intervals.getD j 0 := by decide
  exact hall _ hlt

/-- The message of the exception raised when the credential file never
appears within the wall-clock bound. -/
def kubeconfig_timeout_msg : String :=
  "Timeout waiting for kubeconfig.docker.yaml to be created"

/-- The credential-wait loop of task_helm.verify_kubectl_connectivity:
found tells whether the check of iteration poll_idx sees the kubeconfig
file; elapsed is the wall-clock time consumed so far, advanced by the
chosen sleep after every unsuccessful check.  Leaving the while loop
without a break raises the timeout exception (the while-else branch),
modelled as the error case. -/
def verify_kubectl_wait (found : Nat → Bool) (poll_idx elapsed : Nat) :
    Except String Unit :=
  if elapsed < max_wait then
    if found poll_idx then Except.ok ()
    else verify_kubectl_wait found (poll_idx + 1) (elapsed + sleep_time poll_idx)
  else Except.error kubeconfig_timeout_msg
termination_by max_wait - elapsed
decreasing_by
  have := one_le_sleep_time poll_idx
  omega

theorem verify_kubectl_wait_never_found (found : Nat → Bool)
    (hnf : ∀ k, found k = false) :
    ∀ (d poll_idx elapsed : Nat), max_wait - elapsed ≤ d →
      verify_kubectl_wait found poll_idx elapsed =
        Except.error kubeconfig_timeout_msg := by
  intro d
  induction d with
  | zero =>
    intro poll_idx elapsed h
    rw [verify_kubectl_wait]
    have hc : ¬ elapsed < max_wait := by omega
    simp [hc]
  | succ m ih =>
    intro poll_idx elapsed h
    rw [verify_kubectl_wait]
    by_cases hc : elapsed < max_wait
    · simp [hc, hnf poll_idx]
      apply ih
      have := one_le_sleep_time poll_idx
      omega
    · simp [hc]

/-- C6: the credential wait sleeps 1 second on its first iteration, its
sleep sequence is non-decreasing in the iteration index and capped at 5
seconds, and the whole wait is bounded by the wall-clock budget
max_wait: if the kubeconfig file never appears, the wait ends in the
timeout error (the EnvironmentTimeout failure of the run) no matter at
which iteration index and elapsed time it starts, with no retry beyond
the bound. -/
theorem verify_kubectl_connectivity_polling :
    sleep_time 0 = 1 ∧
    (∀ i j : Nat, i ≤ j → sleep_time i ≤ sleep_time j) ∧
    (∀ i : Nat, sleep_time i ≤ 5) ∧
    (∀ (found : Nat → Bool) (poll_idx elapsed : Nat),
      (∀ k, found k = false) →
      verify_kubectl_wait found poll_idx elapsed =
        Except.error kubeconfig_timeout_msg) := by
  have hlen : poll_intervals.length = 10 := by decide
  have hmono : ∀ a, a < 10 → ∀ b, b < 10 → a ≤ b →
      poll_intervals.getD a 0 ≤ poll_intervals.getD b 0 := by decide
  have hcap : ∀ a, a < 10 → poll_intervals.getD a 0 ≤ 5 := by decide
  refine ⟨by decide, ?_, ?_, ?_⟩
  · intro i j hij
    unfold sleep_time
    rw [hlen]
    exact hmono _ (by omega) _ (by omega) (by omega)
  · intro i
    unfold sleep_time
    rw [hlen]
    exact hcap _ (by omega)
  · intro found poll_idx elapsed hnf
    exact verify_kubectl_wait_never_found found hnf _ poll_idx elapsed
      (Nat.le_refl _)

theorem verify_kubectl_connectivity_polling_witness :
    verify_kubectl_wait (fun _ => false) 0 0 =
      Except.error kubeconfig_timeout_msg :=
  verify_kubectl_connectivity_polling.2.2.2 (fun _ => false) 0 0
    (fun _ => rfl)

/-- The fields of a work-order completion-log record that
wait_for_work_order_completion reads from a parsed JSON object: each is
absent when the object has no such key. -/
structure WorkOrderLogEntry where
  id : Option String
  success : Option Bool
  result_message : Option String
deriving DecidableEq

/-- Python truthiness of a possibly-absent string value: absent and the
empty string are falsy. -/
def pyTruthyStrOpt : Option String → Bool
  | none => false
  | some s => !s.data.isEmpty

/-- A successfully parsed JSON value as json.loads returns it: either a
JSON object (carrying the fields the loop reads; keys it never reads do
not matter) or any other JSON value (null, array, string, number,
boolean), on which the dictionary-only .get attribute access of the
source raises an uncaught AttributeError. -/
inductive PyJson where
  | obj : WorkOrderLogEntry → PyJson
  | nonObj : PyJson
deriving DecidableEq

/-- Outcome of one iteration of the wait_for_work_order_completion
loop: resolve the wait with a (flag, message) pair, raise an uncaught
exception, or fall through to the 10-second sleep. -/
inductive WoTickOutcome where
  | resolved : Bool → String → WoTickOutcome
  | raised : WoTickOutcome
  | fallthrough : WoTickOutcome
deriving DecidableEq

/-- The completion-log check of one iteration: parse stands for the
external json.loads, returning none on a parse error (JSONDecodeError,
the only exception the source catches, after which it falls through).
An object whose id is truthy resolves the wait with its success flag
(default False) and result message (default empty); an object without a
truthy id, a failed query and empty output fall through; a non-object
JSON value makes the log_entry.get call raise. -/
def wo_log_check (parse : String → Option PyJson) (r : ProcResult) :
    WoTickOutcome :=
  if (r.returncode == 0) && !(pyStripChars r.stdout.data).isEmpty then
    match parse r.stdout with
    | some (PyJson.obj entry) =>
      if pyTruthyStrOpt entry.id then
        WoTickOutcome.resolved (entry.success.getD false)
          (entry.result_message.getD "")
      else WoTickOutcome.fallthrough
    | some PyJson.nonObj => WoTickOutcome.raised
    | none => WoTickOutcome.fallthrough
  else WoTickOutcome.fallthrough

/-- The live work-order status check of one iteration (the second query
of the source loop): a successful parse of an object only prints the
status, but a non-object JSON value makes the wo.get call raise the
same uncaught AttributeError; everything else falls through. -/
def wo_status_check (parse : String → Option PyJson) (r : ProcResult) :
    WoTickOutcome :=
  if (r.returncode == 0) && !(pyStripChars r.stdout.data).isEmpty then
    match parse r.stdout with
    | some (PyJson.obj _) => WoTickOutcome.fallthrough
    | some PyJson.nonObj => WoTickOutcome.raised
    | none => WoTickOutcome.fallthrough
  else WoTickOutcome.fallthrough

/-- One full loop iteration: the completion-log check runs first; only
when it falls through does the status check run. -/
def wo_iter (parse : String → Option PyJson) (rlog rstatus : ProcResult) :
    WoTickOutcome :=
  match wo_log_check parse rlog with
  | WoTickOutcome.fallthrough => wo_status_check parse rstatus
  | out => out

/-- The sleep interval of the work-order completion loop, in seconds. -/
def wo_poll_interval : Nat := 10

/-- The name of the Python exception raised by calling .get on a
non-dictionary JSON value. -/
def attribute_error : String := "AttributeError"

/-- The wait_for_work_order_completion while loop, with the remaining
number of ticks as fuel; fuel exhaustion is the timeout path, which
returns (False, Timeout); an uncaught exception aborts the loop as the
error case. -/
def wo_loop (parse : String → Option PyJson)
    (queryLog queryStatus : Nat → ProcResult) :
    Nat → Nat → Except String (Bool × String)
  | 0, _ => Except.ok (false, "Timeout")
  | fuel + 1, k =>
    match wo_iter parse (queryLog k) (queryStatus k) with
    | WoTickOutcome.resolved s m => Except.ok (s, m)
    | WoTickOutcome.raised => Except.error attribute_error
    | WoTickOutcome.fallthrough =>
      wo_loop parse queryLog queryStatus fuel (k + 1)

/-- Number of iterations of the work-order wait: the while condition
elapsed < timeout is checked at elapsed = wo_poll_interval * k. -/
def wo_ticks (timeout : Nat) : Nat :=
  (timeout + wo_poll_interval - 1) / wo_poll_interval

/-- task_helm.wait_for_work_order_completion from the point where the
polling loop is reached, as a function of the json.loads oracle, the
per-tick completion-log and work-order status query results, and the
timeout in seconds: ok is a normal return, error an uncaught raise. -/
def wait_for_work_order_completion (parse : String → Option PyJson)
    (queryLog queryStatus : Nat → ProcResult) (timeout : Nat) :
    Except String (Bool × String) :=
  wo_loop parse queryLog queryStatus (wo_ticks timeout) 0

theorem lt_wo_ticks_iff (timeout k : Nat) :
    k < wo_ticks timeout ↔ wo_poll_interval * k < timeout := by
  unfold wo_ticks wo_poll_interval
  omega

theorem wo_loop_skip (parse : String → Option PyJson)
    (queryLog queryStatus : Nat → ProcResult) :
    ∀ (n fuel start : Nat),
      (∀ j, j < n → wo_iter parse (queryLog (start + j))
        (queryStatus (start + j)) = WoTickOutcome.fallthrough) →
      wo_loop parse queryLog queryStatus (n + fuel) start =
        wo_loop parse queryLog queryStatus fuel (start + n) := by
  intro n
  induction n with
  | zero => intro fuel start _; simp
  | succ m ih =>
    intro fuel start h
    have hstep : wo_iter parse (queryLog start) (queryStatus start) =
        WoTickOutcome.fallthrough := by
      have := h 0 (Nat.succ_pos m)
      simpa using this
    have hrest : ∀ j, j < m → wo_iter parse (queryLog (start + 1 + j))
        (queryStatus (start + 1 + j)) = WoTickOutcome.fallthrough := by
      intro j hj
      have := h (j + 1) (by omega)
      have e : start + (j + 1) = start + 1 + j := by omega
      rwa [e] at this
    have e1 : m + 1 + fuel = (m + fuel) + 1 := by omega
    rw [e1]
    show (match wo_iter parse (queryLog start) (queryStatus start) with
      | WoTickOutcome.resolved s m2 => Except.ok (s, m2)
      | WoTickOutcome.raised => Except.error attribute_error
      | WoTickOutcome.fallthrough =>
        wo_loop parse queryLog queryStatus (m + fuel) (start + 1)) =
        wo_loop parse queryLog queryStatus fuel (start + (m + 1))
    rw [hstep, ih fuel (start + 1) hrest]
    have e2 : start + 1 + m = start + (m + 1) := by omega
    rw [e2]

theorem wo_loop_timeout (parse : String → Option PyJson)
    (queryLog queryStatus : Nat → ProcResult) :
    ∀ (fuel start : Nat),
      (∀ j, j < fuel → wo_iter parse (queryLog (start + j))
        (queryStatus (start + j)) = WoTickOutcome.fallthrough) →
      wo_loop parse queryLog queryStatus fuel start =
        Except.ok (false, "Timeout") := by
  intro fuel
  induction fuel with
  | zero => intro start _; rfl
  | succ m ih =>
    intro start h
    have hstep : wo_iter parse (queryLog start) (queryStatus start) =
        WoTickOutcome.fallthrough := by
      have := h 0 (Nat.succ_pos m)
      simpa using this
    show (match wo_iter parse (queryLog start) (queryStatus start) with
      | WoTickOutcome.resolved s m2 => Except.ok (s, m2)
      | WoTickOutcome.raised => Except.error attribute_error
      | WoTickOutcome.fallthrough =>
        wo_loop parse queryLog queryStatus m (start + 1)) =
        Except.ok (false, "Timeout")
    rw [hstep]
    apply ih
    intro j hj
    have := h (j + 1) (by omega)
    have e : start + (j + 1) = start + 1 + j := by omega
    rwa [e] at this

theorem wo_loop_resolved (parse : String → Option PyJson)
    (queryLog queryStatus : Nat → ProcResult) (fuel k : Nat) (s : Bool)
    (msg : String) (hk : k < fuel)
    (hbefore : ∀ j, j < k → wo_iter parse (queryLog j) (queryStatus j) =
      WoTickOutcome.fallthrough)
    (hhit : wo_iter parse (queryLog k) (queryStatus k) =
      WoTickOutcome.resolved s msg) :
    wo_loop parse queryLog queryStatus fuel 0 = Except.ok (s, msg) := by
  obtain ⟨d, hd⟩ : ∃ d, fuel = k + (d + 1) := ⟨fuel - k - 1, by omega⟩
  subst hd
  rw [wo_loop_skip parse queryLog queryStatus k (d + 1) 0 (by
    intro j hj
    simpa using hbefore j hj)]
  show (match wo_iter parse (queryLog (0 + k)) (queryStatus (0 + k)) with
    | WoTickOutcome.resolved s2 m2 => Except.ok (s2, m2)
    | WoTickOutcome.raised => Except.error attribute_error
    | WoTickOutcome.fallthrough =>
      wo_loop parse queryLog queryStatus d (0 + k + 1)) = Except.ok (s, msg)
  rw [Nat.zero_add, hhit]

theorem wo_loop_raised (parse : String → Option PyJson)
    (queryLog queryStatus : Nat → ProcResult) (fuel k : Nat)
    (hk : k < fuel)
    (hbefore : ∀ j, j < k → wo_iter parse (queryLog j) (queryStatus j) =
      WoTickOutcome.fallthrough)
    (hhit : wo_iter parse (queryLog k) (queryStatus k) =
      WoTickOutcome.raised) :
    wo_loop parse queryLog queryStatus fuel 0 =
      Except.error attribute_error := by
  obtain ⟨d, hd⟩ : ∃ d, fuel = k + (d + 1) := ⟨fuel - k - 1, by omega⟩
  subst hd
  rw [wo_loop_skip parse queryLog queryStatus k (d + 1) 0 (by
    intro j hj
    simpa using hbefore j hj)]
  show (match wo_iter parse (queryLog (0 + k)) (queryStatus (0 + k)) with
    | WoTickOutcome.resolved s2 m2 => Except.ok (s2, m2)
    | WoTickOutcome.raised => Except.error attribute_error
    | WoTickOutcome.fallthrough =>
      wo_loop parse queryLog queryStatus d (0 + k + 1)) =
      Except.error attribute_error
  rw [Nat.zero_add, hhit]

def parse_done_ex : String → Option PyJson :=
  fun s =>
    if s == "RECORD" then
      some (PyJson.obj ⟨some "wo-7", some true, some "applied"⟩)
    else if s == "null" then some PyJson.nonObj
    else none

def query_record_ex : Nat → ProcResult := fun _ => ⟨0, "RECORD"⟩

def query_silent_ex : Nat → ProcResult := fun _ => ⟨0, ""⟩

def query_null_ex : Nat → ProcResult := fun _ => ⟨0, "null"⟩

/-- C3 counterexample: a completion-log endpoint whose response body is
the valid JSON literal null on the first tick (a record that is not yet
terminal) makes wait_for_work_order_completion raise the uncaught
AttributeError of the log_entry.get call instead of polling on to the
timeout and returning (False, Timeout): the wait does not always return
a (boolean, message) pair. -/
theorem wait_for_work_order_non_object_raises :
    wait_for_work_order_completion parse_done_ex query_null_ex
      query_silent_ex 300 = Except.error attribute_error := by
  rfl

/-- C3 (amended): once the polling loop is reached, the only way it can
raise is the unguarded attribute access on parsed JSON.  On ticks whose
responses each fail, are empty after stripping, fail to parse (the
caught JSONDecodeError) or parse to a JSON object, nothing is raised:
if no tick inside the timeout window resolves or raises, the function
returns exactly (False, Timeout), and if the first completion-log
record parsed as an object with an id arrives inside the window, the
function returns that record as (success flag, result message).  But a
response of either per-tick query that parses to a non-object JSON
value (such as the literal null) makes the function raise an uncaught
AttributeError instead of returning a pair. -/
theorem wait_for_work_order_completion_amended :
    (∀ (parse : String → Option PyJson)
      (queryLog queryStatus : Nat → ProcResult) (timeout : Nat),
      (∀ k, wo_poll_interval * k < timeout →
        wo_iter parse (queryLog k) (queryStatus k) =
          WoTickOutcome.fallthrough) →
      wait_for_work_order_completion parse queryLog queryStatus timeout =
        Except.ok (false, "Timeout")) ∧
    (∀ (parse : String → Option PyJson)
      (queryLog queryStatus : Nat → ProcResult) (timeout k : Nat)
      (s : Bool) (msg : String),
      wo_poll_interval * k < timeout →
      (∀ j, j < k → wo_iter parse (queryLog j) (queryStatus j) =
        WoTickOutcome.fallthrough) →
      wo_iter parse (queryLog k) (queryStatus k) =
        WoTickOutcome.resolved s msg →
      wait_for_work_order_completion parse queryLog queryStatus timeout =
        Except.ok (s, msg)) ∧
    (∀ (parse : String → Option PyJson)
      (queryLog queryStatus : Nat → ProcResult) (timeout k : Nat),
      wo_poll_interval * k < timeout →
      (∀ j, j < k → wo_iter parse (queryLog j) (queryStatus j) =
        WoTickOutcome.fallthrough) →
      wo_iter parse (queryLog k) (queryStatus k) = WoTickOutcome.raised →
      wait_for_work_order_completion parse queryLog queryStatus timeout =
        Except.error attribute_error) := by
  refine ⟨?_, ?_, ?_⟩
  · intro parse queryLog queryStatus timeout hall
    apply wo_loop_timeout
    intro j hj
    have hj2 : j < wo_ticks timeout := by simpa using hj
    simpa using hall j ((lt_wo_ticks_iff timeout j).1 hj2)
  · intro parse queryLog queryStatus timeout k s msg hk hbefore hhit
    exact wo_loop_resolved parse queryLog queryStatus _ k s msg
      ((lt_wo_ticks_iff timeout k).2 hk) hbefore hhit
  · intro parse queryLog queryStatus timeout k hk hbefore hhit
    exact wo_loop_raised parse queryLog queryStatus _ k
      ((lt_wo_ticks_iff timeout k).2 hk) hbefore hhit

theorem wait_for_work_order_completion_amended_witness :
    wait_for_work_order_completion parse_done_ex query_silent_ex
      query_silent_ex 300 = Except.ok (false, "Timeout") ∧
    wait_for_work_order_completion parse_done_ex query_record_ex
      query_silent_ex 300 = Except.ok (true, "applied") ∧
    wait_for_work_order_completion parse_done_ex query_silent_ex
      query_null_ex 300 = Except.error attribute_error :=
  ⟨wait_for_work_order_completion_amended.1 parse_done_ex query_silent_ex
      query_silent_ex 300 (fun _ _ => rfl),
   wait_for_work_order_completion_amended.2.1 parse_done_ex query_record_ex
      query_silent_ex 300 0 true "applied" (by decide)
      (fun j hj => absurd hj (Nat.not_lt_zero j)) rfl,
   wait_for_work_order_completion_amended.2.2 parse_done_ex query_silent_ex
      query_null_ex 300 0 (by decide)
      (fun j hj => absurd hj (Nat.not_lt_zero j)) rfl⟩

theorem pyIn_append_left (nd : String) (s t : List Char)
    (h : pyIn nd t = true) : pyIn nd (s ++ t) = true := by
  rw [pyIn, decide_eq_true_eq] at h ⊢
  obtain ⟨u, v, huv⟩ := h
  exact ⟨s ++ u, v, by rw [← huv]; simp⟩

theorem pyIn_append_right (nd : String) (s t : List Char)
    (h : pyIn nd s = true) : pyIn nd (s ++ t) = true := by
  rw [pyIn, decide_eq_true_eq] at h ⊢
  obtain ⟨u, v, huv⟩ := h
  exact ⟨u, v ++ t, by rw [← huv]; simp⟩

/-- task_helm.helm_uninstall, command construction: the uninstall
command always carries the ignore-not-found flag. -/
def helm_uninstall_cmd (release_name namespace_arg : String) : String :=
  "helm uninstall " ++ release_name ++ " --namespace " ++ namespace_arg ++
    " --wait --ignore-not-found"

/-- Modelled from the spec, sections 4.2 and 6 (the package-manager CLI
is an external collaborator, present here only through the command the
orchestrator issues): exit success of its uninstall command over the set
of installed release names: removing an installed release succeeds, and
a missing release is success exactly when the ignore-not-found flag was
passed. -/
def helm_cli_uninstall_ok (installed : List String) (release_name : String)
    (ignore_not_found : Bool) : Bool :=
  if release_name ∈ installed then true else ignore_not_found

/-- task_helm.helm_uninstall: build the command and report the exit
success of running it against a cluster whose helm state is the list of
installed release names. -/
def helm_uninstall (installed : List String)
    (release_name namespace_arg : String) : Bool :=
  helm_cli_uninstall_ok installed release_name
    (pyIn "--ignore-not-found" (helm_uninstall_cmd release_name namespace_arg).data)

/-- C5: uninstalling a release name that is not installed returns
success, for every release name and namespace: the command is always
issued with the ignore-not-found flag, which makes the operation
idempotent. -/
theorem helm_uninstall_idempotent (installed : List String)
    (release_name namespace_arg : String)
    (habsent : release_name ∉ installed) :
    helm_uninstall installed release_name namespace_arg = true := by
  unfold helm_uninstall helm_cli_uninstall_ok
  rw [if_neg habsent]
  unfold helm_uninstall_cmd
  simp only [String.data_append, List.append_assoc]
  apply pyIn_append_left
  apply pyIn_append_left
  apply pyIn_append_left
  apply pyIn_append_left
  decide

theorem helm_uninstall_idempotent_witness :
    helm_uninstall [] "demo-release" "default" = true :=
  helm_uninstall_idempotent [] "demo-release" "default"
    (List.not_mem_nil "demo-release")

theorem pyIn_self (s : String) : pyIn s s.data = true := by
  rw [pyIn, decide_eq_true_eq]

/-- task_helm.helm_install, values_args: the space-joined --set
assignments, one per key/value pair, in order. -/
def values_args : List (String × String) → String
  | [] => ""
  | [kv] => "--set " ++ kv.1 ++ "=" ++ kv.2
  | kv :: rest => "--set " ++ kv.1 ++ "=" ++ kv.2 ++ " " ++ values_args rest

theorem values_args_cons (kv : String × String)
    (l : List (String × String)) (h : l ≠ []) :
    values_args (kv :: l) =
      "--set " ++ kv.1 ++ "=" ++ kv.2 ++ " " ++ values_args l := by
  cases l with
  | nil => exact absurd rfl h
  | cons a as => rfl

/-- task_helm.helm_install, command construction.  Whitespace runs
coming from the continuation lines of the source template are collapsed
to single spaces here; the leading newline-and-indent and the trailing
newline of the template are kept. -/
def helm_install_cmd (chart_name release_name : String)
    (values : List (String × String))
    (namespace_arg values_file_arg : String) : String :=
  "\n        helm install " ++ release_name ++ " /charts/" ++ chart_name ++
    " --namespace " ++ namespace_arg ++
    " --create-namespace --wait --timeout 10m " ++ values_file_arg ++ " " ++
    values_args values ++ "\n    "

/-- task_helm.helm_install, the debug echo of the complete command: the
print of Helm command: followed by cmd.strip(). -/
def helm_command_log_line (cmd : String) : String :=
  "\nHelm command: " ++ String.mk (pyStripChars cmd.data)

/-- task_helm.create_agent_in_broker, the one print of the returned PAK:
Extracted PAK: followed by the first 20 characters and an ellipsis. -/
def extracted_pak_line (pak : String) : String :=
  "Extracted PAK: " ++ String.mk (pak.data.take 20) ++ "..."

theorem pak_in_values_args :
    ∀ (pre : List (String × String)) (post : List (String × String))
      (k v : String),
      pyIn v (values_args (pre ++ (k, v) :: post)).data = true := by
  intro pre
  induction pre with
  | nil =>
    intro post k v
    cases post with
    | nil =>
      show pyIn v (values_args [(k, v)]).data = true
      rw [show values_args [(k, v)] = "--set " ++ k ++ "=" ++ v from rfl]
      simp only [String.data_append, List.append_assoc]
      apply pyIn_append_left
      apply pyIn_append_left
      apply pyIn_append_left
      exact pyIn_self v
    | cons a as =>
      rw [List.nil_append, values_args_cons _ _ (by simp)]
      simp only [String.data_append, List.append_assoc]
      apply pyIn_append_left
      apply pyIn_append_left
      apply pyIn_append_left
      apply pyIn_append_right
      exact pyIn_self v
  | cons b pre ih =>
    intro post k v
    rw [List.cons_append, values_args_cons _ _ (by simp)]
    simp only [String.data_append, List.append_assoc]
    apply pyIn_append_left
    apply pyIn_append_left
    apply pyIn_append_left
    apply pyIn_append_left
    apply pyIn_append_left
    exact ih post k v

set_option maxRecDepth 8192 in
/-- C8 counterexample: a 30-character PAK passed to helm_install as the
broker.pak value override appears in full, untruncated, in the echoed
helm command line, so the orchestrator does emit a PAK to log output in
full on the agent-install path. -/
theorem helm_install_logs_full_pak :
    pyIn "SECRETPAKVALUE0123456789ABCDEF"
      (helm_command_log_line (helm_install_cmd "brokkr-agent"
        "brokkr-agent-test"
        [("broker.pak", "SECRETPAKVALUE0123456789ABCDEF")]
        "default" "")).data = true ∧
    ("SECRETPAKVALUE0123456789ABCDEF" : String).data.length > 20 := by
  constructor
  · decide
  · decide

/-- C8 (amended): the direct PAK print of create_agent_in_broker is
truncated (the printed line depends on the PAK only through its first 20
characters), but helm_install echoes its complete command line, and
whenever the PAK is passed as the broker.pak value override the full PAK
is a substring of that echoed command, so the PAK is not kept out of the
log output on the chart-install path. -/
theorem pak_logging_amended :
    (∀ pak : String,
      extracted_pak_line pak =
        extracted_pak_line (String.mk (pak.data.take 20))) ∧
    (∀ (pre post : List (String × String))
      (pak chart_name release_name namespace_arg values_file_arg : String),
      pyIn pak (helm_install_cmd chart_name release_name
        (pre ++ ("broker.pak", pak) :: post) namespace_arg
        values_file_arg).data = true) := by
  constructor
  · intro pak
    unfold extracted_pak_line
    have h : (pak.data.take 20).take 20 = pak.data.take 20 := by
      simp [List.take_take]
    rw [show (String.mk (pak.data.take 20)).data = pak.data.take 20 from rfl, h]
  · intro pre post pak chart_name release_name namespace_arg values_file_arg
    unfold helm_install_cmd
    simp only [String.data_append, List.append_assoc]
    apply pyIn_append_left
    apply pyIn_append_left
    apply pyIn_append_left
    apply pyIn_append_left
    apply pyIn_append_left
    apply pyIn_append_left
    apply pyIn_append_left
    apply pyIn_append_left
    apply pyIn_append_left
    apply pyIn_append_right
    exact pak_in_values_args pre post "broker.pak" pak

/-- The base64 alphabet shared by the Python base64 module (encoding
side, in create_work_order) and the base64 shell tool (decoding side,
inside the broker pod). -/
def b64chars : List Char :=
  "ABCDEFGHIJKLMNOPQRSTUVWXYZabcdefghijklmnopqrstuvwxyz0123456789+/".data

/-- The alphabet character of a 6-bit value. -/
def b64char (i : Nat) : Char := b64chars.getD i 'A'

/-- The 6-bit value of an alphabet character. -/
def b64val (c : Char) : Nat := b64chars.findIdx (fun d => d == c)

/-- Standard base64 encoding of a byte sequence, with = padding: the
behavior of base64.b64encode applied to payload.encode(). -/
def b64encode : List Nat → List Char
  | [] => []
  | [a] => [b64char (a / 4), b64char (a % 4 * 16), '=', '=']
  | [a, b] =>
    [b64char (a / 4), b64char (a % 4 * 16 + b / 16), b64char (b % 16 * 4), '=']
  | a :: b :: c :: rest =>
    b64char (a / 4) :: b64char (a % 4 * 16 + b / 16) ::
      b64char (b % 16 * 4 + c / 64) :: b64char (c % 64) :: b64encode rest

/-- Regroup a sequence of 6-bit values into bytes: the inverse bit
packing of base64. -/
def b64regroup : List Nat → List Nat
  | v1 :: v2 :: v3 :: v4 :: rest =>
    (v1 * 4 + v2 / 16) :: (v2 % 16 * 16 + v3 / 4) :: (v3 % 4 * 64 + v4) ::
      b64regroup rest
  | [v1, v2] => [v1 * 4 + v2 / 16]
  | [v1, v2, v3] => [v1 * 4 + v2 / 16, v2 % 16 * 16 + v3 / 4]
  | _ => []

/-- Standard base64 decoding, the behavior of the base64 -d shell tool:
discard padding, map characters to 6-bit values, regroup into bytes. -/
def b64decode (cs : List Char) : List Nat :=
  b64regroup ((cs.filter (fun c => c != '=')).map b64val)

theorem b64val_b64char : ∀ i, i < 64 → b64val (b64char i) = i := by decide

theorem b64char_ne_pad : ∀ i, i < 64 → (b64char i != '=') = true := by decide

theorem filter_pad_keep (x : Char) (l : List Char) (h : (x != '=') = true) :
    (x :: l).filter (fun c => c != '=') =
      x :: l.filter (fun c => c != '=') :=
  List.filter_cons_of_pos h

theorem filter_pad_drop (l : List Char) :
    ('=' :: l).filter (fun c => c != '=') =
      l.filter (fun c => c != '=') :=
  List.filter_cons_of_neg (by decide)

theorem b64_round_trip :
    ∀ l : List Nat, (∀ b ∈ l, b < 256) → b64decode (b64encode l) = l := by
  intro l
  induction l using b64encode.induct with
  | case1 => intro _; rfl
  | case2 a =>
    intro h
    have ha : a < 256 := h a (by simp)
    have h1 : a / 4 < 64 := by omega
    have h2 : a % 4 * 16 < 64 := by omega
    have epad : ¬ ((('=' : Char) != '=') = true) := by decide
    show b64decode (b64encode [a]) = [a]
    rw [show b64encode [a] =
        [b64char (a / 4), b64char (a % 4 * 16), '=', '='] from rfl]
    unfold b64decode
    rw [filter_pad_keep _ _ (b64char_ne_pad _ h1),
      filter_pad_keep _ _ (b64char_ne_pad _ h2),
      filter_pad_drop, filter_pad_drop,
      List.filter_nil, List.map_cons, List.map_cons, List.map_nil,
      b64val_b64char _ h1, b64val_b64char _ h2]
    simp only [b64regroup]
    have g : a / 4 * 4 + a % 4 * 16 / 16 = a := by omega
    rw [g]
  | case3 a b =>
    intro h
    have ha : a < 256 := h a (by simp)
    have hb : b < 256 := h b (by simp)
    have h1 : a / 4 < 64 := by omega
    have h2 : a % 4 * 16 + b / 16 < 64 := by omega
    have h3 : b % 16 * 4 < 64 := by omega
    have epad : ¬ ((('=' : Char) != '=') = true) := by decide
    show b64decode (b64encode [a, b]) = [a, b]
    rw [show b64encode [a, b] =
        [b64char (a / 4), b64char (a % 4 * 16 + b / 16),
          b64char (b % 16 * 4), '='] from rfl]
    unfold b64decode
    rw [filter_pad_keep _ _ (b64char_ne_pad _ h1),
      filter_pad_keep _ _ (b64char_ne_pad _ h2),
      filter_pad_keep _ _ (b64char_ne_pad _ h3),
      filter_pad_drop, List.filter_nil,
      List.map_cons, List.map_cons, List.map_cons, List.map_nil,
      b64val_b64char _ h1, b64val_b64char _ h2, b64val_b64char _ h3]
    simp only [b64regroup]
    have g1 : a / 4 * 4 + (a % 4 * 16 + b / 16) / 16 = a := by omega
    have g2 : (a % 4 * 16 + b / 16) % 16 * 16 + b % 16 * 4 / 4 = b := by omega
    rw [g1, g2]
  | case4 a b c rest ih =>
    intro h
    have ha : a < 256 := h a (by simp)
    have hb : b < 256 := h b (by simp)
    have hc : c < 256 := h c (by simp)
    have h1 : a / 4 < 64 := by omega
    have h2 : a % 4 * 16 + b / 16 < 64 := by omega
    have h3 : b % 16 * 4 + c / 64 < 64 := by omega
    have h4 : c % 64 < 64 := by omega
    have tail_eq : b64decode (b64encode rest) = rest :=
      ih (fun x hx => h x (by simp [hx]))
    show b64decode (b64encode (a :: b :: c :: rest)) = a :: b :: c :: rest
    rw [show b64encode (a :: b :: c :: rest) =
        b64char (a / 4) :: b64char (a % 4 * 16 + b / 16) ::
          b64char (b % 16 * 4 + c / 64) :: b64char (c % 64) ::
          b64encode rest from rfl]
    unfold b64decode at tail_eq ⊢
    rw [filter_pad_keep _ _ (b64char_ne_pad _ h1),
      filter_pad_keep _ _ (b64char_ne_pad _ h2),
      filter_pad_keep _ _ (b64char_ne_pad _ h3),
      filter_pad_keep _ _ (b64char_ne_pad _ h4),
      List.map_cons, List.map_cons, List.map_cons, List.map_cons,
      b64val_b64char _ h1, b64val_b64char _ h2, b64val_b64char _ h3,
      b64val_b64char _ h4]
    simp only [b64regroup]
    have g1 : a / 4 * 4 + (a % 4 * 16 + b / 16) / 16 = a := by omega
    have g2 : (a % 4 * 16 + b / 16) % 16 * 16 +
        (b % 16 * 4 + c / 64) / 4 = b := by omega
    have g3 : (b % 16 * 4 + c / 64) % 4 * 64 + c % 64 = c := by omega
    rw [g1, g2, g3, tail_eq]

/-- task_helm.create_work_order, the kubectl exec command template that
carries the payload across the shell boundary: the payload enters only
through the payload_b64 argument, piped through base64 -d inside the
broker pod.  Whitespace runs of the source template are collapsed to
single spaces. -/
def create_wo_cmd (broker_pod namespace_arg payload_b64 admin_pak : String) :
    String :=
  "\n        kubectl exec " ++ broker_pod ++ " -n " ++ namespace_arg ++
    " -- sh -c \x27\n            echo " ++ payload_b64 ++
    " | base64 -d | curl -s -X POST -H \"Authorization: Bearer " ++
    admin_pak ++
    "\" -H \"Content-Type: application/json\" -d @- http://localhost:3000/api/v1/work-orders\n        \x27\n    "

/-- task_helm.create_work_order, payload transmission step: the JSON
payload bytes are base64-encoded and only the encoded form is spliced
into the command. -/
def create_work_order_cmd (broker_pod namespace_arg : String)
    (payload : List Nat) (admin_pak : String) : String :=
  create_wo_cmd broker_pod namespace_arg (String.mk (b64encode payload))
    admin_pak

/-- C4: for every byte sequence, decoding the base64 encoding gives back
exactly the original bytes (so the round trip used for work-order
payload transmission is lossless, including for payloads with quotes,
newlines or non-ASCII UTF-8 bytes), and create_work_order splices the
payload into the shell command only through its base64-encoded form. -/
theorem work_order_payload_base64_round_trip (payload : List Nat)
    (hbytes : ∀ b ∈ payload, b < 256) :
    b64decode (b64encode payload) = payload ∧
    ∀ broker_pod namespace_arg admin_pak : String,
      create_work_order_cmd broker_pod namespace_arg payload admin_pak =
        create_wo_cmd broker_pod namespace_arg
          (String.mk (b64encode payload)) admin_pak :=
  ⟨b64_round_trip payload hbytes, fun _ _ _ => rfl⟩

/-- The UTF-8 bytes of a JSON payload containing a double quote, a
newline and a non-ASCII character (u umlaut). -/
def payload_ex : List Nat :=
  [123, 34, 110, 34, 58, 32, 34, 195, 188, 10, 34, 125]

theorem work_order_payload_base64_round_trip_witness :
    b64decode (b64encode payload_ex) = payload_ex :=
  (work_order_payload_base64_round_trip payload_ex (by decide)).1

end Brokkr
